import Mathlib

/-!
Verification development for the fantasy-football transfer agent
(`fantasy_agent.py`).  The Python data classes and the pure algorithmic
core (fixture-difficulty model, player evaluator, transfer search, data
unifier) are shallowly embedded below; floating point numbers are
modelled as exact rationals, `datetime` values as integer timestamps,
and Python `None` as `Option`.  Python truthiness tests (`if not x`)
are reproduced exactly: `None`, `0`, `0.0` and `""` are all falsy.
-/

/-- Python truthiness of an optional integer (`None` and `0` are falsy). -/
def truthyInt : Option ℤ → Bool
  | none => false
  | some n => n != 0

/-- Python truthiness of an optional rational (`None` and `0.0` are falsy). -/
def truthyRat : Option ℚ → Bool
  | none => false
  | some q => q != 0

/-- Python truthiness of an optional string (`None` and `""` are falsy). -/
def truthyStr : Option String → Bool
  | none => false
  | some s => s != ""

/-- Web-scraped player data (`ScrapedPlayerData` in `fantasy_agent.py`). -/
structure ScrapedPlayerData where
  jerarquia : Option ℤ := none
  play_probability : Option ℚ := none
  form_arrow : Option ℤ := none
  injury_risk : Option String := none
deriving Repr, DecidableEq

/-- `ScrapedPlayerData.get_injury_risk_score`: the `INJURY_RISK_SCORES`
lookup with default `0.7`, and `0.7` for a falsy label. -/
def ScrapedPlayerData.get_injury_risk_score (d : ScrapedPlayerData) : ℚ :=
  match d.injury_risk with
  | none => 7/10
  | some s =>
    if s = "" then 7/10
    else if s = "Ironman" then 13/10
    else if s = "Bajo" then 1
    else if s = "Medio" then 1/2
    else if s = "Alto" then 1/10
    else 7/10

/-- `ScrapedPlayerData.get_jerarquia_score`: `(7 - jerarquia) / 6.0`,
with `0.5` when the rank is falsy (`None` or `0`). -/
def ScrapedPlayerData.get_jerarquia_score (d : ScrapedPlayerData) : ℚ :=
  match d.jerarquia with
  | none => 1/2
  | some j => if j = 0 then 1/2 else (7 - (j : ℚ)) / 6

/-- `ScrapedPlayerData.get_form_score`: `5.0 - (form_arrow / 5.0)`,
with `0.5` when the arrow is falsy (`None` or `0`). -/
def ScrapedPlayerData.get_form_score (d : ScrapedPlayerData) : ℚ :=
  match d.form_arrow with
  | none => 1/2
  | some a => if a = 0 then 1/2 else 5 - (a : ℚ) / 5

/-- Player model (`Player` in `fantasy_agent.py`).  Timestamps are
integers, monetary values keep the source's integer currency units. -/
structure Player where
  id : String
  nickname : String
  position_id : ℤ
  team_id : String
  team_name : String
  points : ℤ
  average_points : ℚ
  last_season_points : Option ℤ := none
  market_value : ℤ
  player_status : String
  last_3_weeks : List ℤ := []
  minutes_last_3 : List ℤ := []
  is_on_market : Bool := false
  owned_by : Option String := none
  buyout_clause : Option ℤ := none
  buyout_locked_until : Option ℤ := none
  sale_price : Option ℤ := none
  scraped_data : Option ScrapedPlayerData := none
deriving Repr, DecidableEq

/-- `Player.price_in_millions`: `market_value / 1_000_000`. -/
def Player.price_in_millions (p : Player) : ℚ :=
  (p.market_value : ℚ) / 1000000

/-- `Player.points_per_game`: returns `average_points`. -/
def Player.points_per_game (p : Player) : ℚ :=
  p.average_points

/-- `Player.form_last_3`: mean of the last-3 week points, falling back
to `average_points` on an empty list. -/
def Player.form_last_3 (p : Player) : ℚ :=
  if p.last_3_weeks = [] then p.average_points
  else (p.last_3_weeks.map (fun n => (n : ℚ))).sum / p.last_3_weeks.length

/-- `Player.minutes_reliability`: `min(avg_minutes / 90, 1)` with a
`0.5` fallback for an empty minutes list. -/
def Player.minutes_reliability (p : Player) : ℚ :=
  if p.minutes_last_3 = [] then 1/2
  else
    min (((p.minutes_last_3.map (fun n => (n : ℚ))).sum / p.minutes_last_3.length) / 90) 1

/-- `Player.is_available`: status string equals `"ok"`. -/
def Player.is_available (p : Player) : Bool :=
  p.player_status == "ok"

/-- `Player.is_transferable`: on the open market, or under a buyout lock
whose expiry is strictly before `now` (a `datetime` is always truthy in
Python, so only presence of the lock is tested). -/
def Player.is_transferable (p : Player) (now : ℤ) : Bool :=
  if p.is_on_market then true
  else
    match p.buyout_locked_until with
    | some t => decide (t < now)
    | none => false

/-- `Player.get_acquisition_cost`: market sale price if on market with a
truthy sale price, else a truthy buyout clause, else `float('inf')`
(modelled as `none`, which every finite-budget comparison treats as
infeasible exactly as `inf` is in the source). -/
def Player.get_acquisition_cost (p : Player) : Option ℚ :=
  if p.is_on_market && truthyInt p.sale_price then
    some ((p.sale_price.getD 0 : ℚ) / 1000000)
  else if truthyInt p.buyout_clause then
    some ((p.buyout_clause.getD 0 : ℚ) / 1000000)
  else none

/-- Match fixture (`Fixture` in `fantasy_agent.py`). -/
structure Fixture where
  match_id : String
  match_date : ℤ
  home_team_id : String
  home_team_name : String
  away_team_id : String
  away_team_name : String
  home_score : Option ℤ := none
  away_score : Option ℤ := none
  match_state : ℤ := 0
deriving Repr, DecidableEq

/-- Fantasy team (`Team` in `fantasy_agent.py`). -/
structure Team where
  team_id : String
  manager_name : String
  players : List Player
  team_value : ℤ
  team_points : ℤ
  team_money : Option ℤ
  position : ℤ
deriving Repr, DecidableEq

namespace FixtureAnalyzer

/-- `FixtureAnalyzer.TEAM_STRENGTHS`: static (attack, defense) ratings. -/
def TEAM_STRENGTHS : List (String × ℚ × ℚ) :=
  [("Real Madrid", 5, 9/2),
   ("FC Barcelona", 24/5, 21/5),
   ("Atlético de Madrid", 4, 24/5),
   ("Athletic Club", 21/5, 4),
   ("Real Sociedad", 4, 19/5),
   ("Villarreal CF", 19/5, 19/5),
   ("Real Betis", 19/5, 7/2),
   ("Valencia CF", 7/2, 7/2),
   ("Sevilla FC", 7/2, 19/5),
   ("Girona FC", 7/2, 33/10),
   ("RC Celta", 7/2, 3),
   ("RCD Mallorca", 33/10, 7/2),
   ("Rayo Vallecano", 33/10, 16/5),
   ("C.A. Osasuna", 16/5, 7/2),
   ("Getafe CF", 14/5, 19/5),
   ("UD Las Palmas", 3, 14/5),
   ("Deportivo Alavés", 14/5, 3),
   ("RCD Espanyol", 14/5, 3),
   ("CD Leganés", 5/2, 16/5),
   ("Real Valladolid", 5/2, 14/5)]

/-- `FixtureAnalyzer.DEFAULT_STRENGTH`: neutral rating for unknown teams. -/
def DEFAULT_STRENGTH : ℚ × ℚ := (3, 3)

/-- `TEAM_STRENGTHS.get(opponent, DEFAULT_STRENGTH)`.  The table is kept
as an explicit parameter (it is a class-level constant in the source);
all concrete uses instantiate it with `TEAM_STRENGTHS`. -/
def lookupStrength (strengths : List (String × ℚ × ℚ)) (name : String) : ℚ × ℚ :=
  match strengths.find? (fun e => e.1 = name) with
  | some e => e.2
  | none => DEFAULT_STRENGTH

/-- Average of the opponent's attack and defense ratings. -/
def avgStrength (strengths : List (String × ℚ × ℚ)) (name : String) : ℚ :=
  ((lookupStrength strengths name).1 + (lookupStrength strengths name).2) / 2

/-- `FixtureAnalyzer._calculate_match_difficulty`: `6 - avg_strength`,
minus `0.5` at home / plus `0.2` away, clamped to `[1, 5]`. -/
def calculate_match_difficulty (strengths : List (String × ℚ × ℚ))
    (opponent : String) (is_home : Bool) : ℚ :=
  let d := 6 - avgStrength strengths opponent
  let d := if is_home then d - 1/2 else d + 1/5
  max 1 (min 5 d)

/-- One entry of the list built by `get_fixture_difficulty`. -/
structure FixtureInfo where
  opponent : String
  is_home : Bool
  difficulty : ℚ
  date : ℤ
deriving Repr, DecidableEq

/-- Loop body of `FixtureAnalyzer.get_fixture_difficulty`: fixtures are
scanned in calendar order, entries for the team are appended, and the
scan stops as soon as the accumulator reaches `n` entries (the source
appends first and then tests `len >= n`). -/
def get_fixture_difficulty_go (strengths : List (String × ℚ × ℚ))
    (team_id : String) (n : ℕ) :
    List FixtureInfo → List Fixture → List FixtureInfo
  | acc, [] => acc
  | acc, f :: rest =>
    if f.home_team_id = team_id then
      let acc := acc ++ [⟨f.away_team_name, true,
        calculate_match_difficulty strengths f.away_team_name true, f.match_date⟩]
      if n ≤ acc.length then acc else get_fixture_difficulty_go strengths team_id n acc rest
    else if f.away_team_id = team_id then
      let acc := acc ++ [⟨f.home_team_name, false,
        calculate_match_difficulty strengths f.home_team_name false, f.match_date⟩]
      if n ≤ acc.length then acc else get_fixture_difficulty_go strengths team_id n acc rest
    else get_fixture_difficulty_go strengths team_id n acc rest

/-- `FixtureAnalyzer.get_fixture_difficulty` (the unused `team_name`
parameter of the source is dropped). -/
def get_fixture_difficulty (strengths : List (String × ℚ × ℚ))
    (fixtures : List Fixture) (team_id : String) (next_n_weeks : ℕ := 3) :
    List FixtureInfo :=
  get_fixture_difficulty_go strengths team_id next_n_weeks [] fixtures

/-- `FixtureAnalyzer.calculate_fixture_score`: weighted average of the
upcoming difficulties scaled by 2, weights `[1.0, 0.8, 0.6]` truncated
to the number of fixtures; `5.0` when there are no fixtures. -/
def calculate_fixture_score (strengths : List (String × ℚ × ℚ))
    (fixtures : List Fixture) (p : Player) (next_weeks : ℕ := 3) : ℚ :=
  let fs := get_fixture_difficulty strengths fixtures p.team_id next_weeks
  if fs = [] then 5
  else
    let weights : List ℚ := [1, 4/5, 3/5].take fs.length
    let scores := fs.map (fun f => f.difficulty * 2)
    ((scores.zip weights).map (fun sw => sw.1 * sw.2)).sum / weights.sum

end FixtureAnalyzer

namespace PlayerEvaluator

/-- `PlayerEvaluator.WEIGHTS` (score weights, total 90). -/
def WEIGHTS_form : ℚ := 15
def WEIGHTS_fixtures : ℚ := 20
def WEIGHTS_ppg : ℚ := 15
def WEIGHTS_value : ℚ := 10
def WEIGHTS_jerarquia : ℚ := 15
def WEIGHTS_probability : ℚ := 10
def WEIGHTS_injury : ℚ := 5

/-- `PlayerEvaluator._calculate_form_score`: capped last-3 form scaled
to the form weight, plus the scraped form arrow contribution
(`get_form_score() * 10`) or a flat `5` when the arrow is absent/falsy. -/
def calculate_form_score (p : Player) : ℚ :=
  let form_score := min (p.form_last_3 / 10) 1 * WEIGHTS_form
  match p.scraped_data with
  | some d => if truthyInt d.form_arrow then form_score + d.get_form_score * 10
              else form_score + 5
  | none => form_score + 5

/-- `PlayerEvaluator._calculate_fixture_score`: inverted rescale of the
analyzer's 2-10 fixture score onto the fixtures weight. -/
def calculate_fixture_score (strengths : List (String × ℚ × ℚ))
    (fixtures : List Fixture) (p : Player) : ℚ :=
  let fixture_raw := FixtureAnalyzer.calculate_fixture_score strengths fixtures p 3
  (10 - (fixture_raw - 2)) / 8 * WEIGHTS_fixtures

/-- `PlayerEvaluator._calculate_ppg_score`. -/
def calculate_ppg_score (p : Player) : ℚ :=
  min (p.points_per_game / 10) 1 * WEIGHTS_ppg

/-- `PlayerEvaluator._calculate_value_score`. -/
def calculate_value_score (p : Player) : ℚ :=
  let value_raw := p.points_per_game / max p.price_in_millions (1/10)
  min (value_raw / 2) 1 * WEIGHTS_value

/-- `PlayerEvaluator._calculate_jerarquia_score`: scraped hierarchy rank
scaled to the weight, half weight when absent/falsy. -/
def calculate_jerarquia_score (p : Player) : ℚ :=
  match p.scraped_data with
  | some d => if truthyInt d.jerarquia then d.get_jerarquia_score * WEIGHTS_jerarquia
              else WEIGHTS_jerarquia / 2
  | none => WEIGHTS_jerarquia / 2

/-- `PlayerEvaluator._calculate_probability_score`: scraped probability
scaled to the weight, 70% of the weight when absent/falsy. -/
def calculate_probability_score (p : Player) : ℚ :=
  match p.scraped_data with
  | some d => if truthyRat d.play_probability then
                d.play_probability.getD 0 * WEIGHTS_probability
              else WEIGHTS_probability * (7/10)
  | none => WEIGHTS_probability * (7/10)

/-- `PlayerEvaluator._calculate_injury_score`: scraped injury risk mapped
through the lookup, 70% of the weight when absent/falsy. -/
def calculate_injury_score (p : Player) : ℚ :=
  match p.scraped_data with
  | some d => if truthyStr d.injury_risk then
                d.get_injury_risk_score * WEIGHTS_injury
              else WEIGHTS_injury * (7/10)
  | none => WEIGHTS_injury * (7/10)

/-- `PlayerEvaluator._apply_penalties`: multiply by `0.7` when minutes
reliability is below `0.6`, then by `0.5` when the status is not `"ok"`. -/
def apply_penalties (p : Player) (score : ℚ) : ℚ :=
  let score := if p.minutes_reliability < 3/5 then score * (7/10) else score
  if p.player_status ≠ "ok" then score * (1/2) else score

/-- The itemized result of `PlayerEvaluator.evaluate_player`. -/
structure EvalResult where
  total_score : ℚ
  form_score : ℚ
  fixture_score : ℚ
  ppg_score : ℚ
  value_score : ℚ
  jerarquia_score : ℚ
  probability_score : ℚ
  injury_score : ℚ
  minutes_reliability : ℚ
  is_available : Bool
deriving Repr, DecidableEq

/-- `PlayerEvaluator.evaluate_player`: sum the seven weighted sub-scores
and apply the penalties. -/
def evaluate_player (strengths : List (String × ℚ × ℚ))
    (fixtures : List Fixture) (p : Player) : EvalResult :=
  let form_score := calculate_form_score p
  let fixture_score := calculate_fixture_score strengths fixtures p
  let ppg_score := calculate_ppg_score p
  let value_score := calculate_value_score p
  let jerarquia_score := calculate_jerarquia_score p
  let probability_score := calculate_probability_score p
  let injury_score := calculate_injury_score p
  let total_score := form_score + fixture_score + ppg_score + value_score +
    jerarquia_score + probability_score + injury_score
  { total_score := apply_penalties p total_score
    form_score := form_score
    fixture_score := fixture_score
    ppg_score := ppg_score
    value_score := value_score
    jerarquia_score := jerarquia_score
    probability_score := probability_score
    injury_score := injury_score
    minutes_reliability := p.minutes_reliability
    is_available := p.is_available }

/-- One transfer suggestion record built by `find_best_transfers`. -/
structure TransferSuggestion where
  player_out : Player
  player_out_score : ℚ
  player_in : Player
  player_in_score : ℚ
  improvement : ℚ
  acquisition_cost : ℚ
  net_cost : ℚ
  value_ratio : ℚ
  acquisition_type : String
deriving Repr, DecidableEq

/-- `PlayerEvaluator._get_acquisition_type`. -/
def get_acquisition_type (p : Player) (now : ℤ) : String :=
  if p.is_on_market then "Market"
  else
    match p.buyout_locked_until with
    | some t => if t < now then "Buyout (from " ++ p.owned_by.getD "None" ++ ")"
                else "Unknown"
    | none => "Unknown"

/-- The candidate filter of `find_best_transfers`: not on the owned
roster, available, and transferable at the search's current time. -/
def eligible_candidates (team : Team) (pool : List Player) (now : ℤ) : List Player :=
  pool.filter (fun p =>
    !((team.players.map (fun cp => cp.id)).contains p.id) &&
    p.is_available && p.is_transferable now)

/-- The per-pair body of `find_best_transfers`: `none` when the pair is
rejected (infinite acquisition cost, net cost over budget, or
improvement not above 3), the recorded suggestion otherwise.  The
evaluator's total score is abstracted as `score` (the source calls
`self.evaluate_player`). -/
def suggestion_for (score : Player → ℚ) (budget : ℚ) (now : ℤ)
    (current_player candidate : Player) : Option TransferSuggestion :=
  match candidate.get_acquisition_cost with
  | none => none
  | some cost =>
    let net_cost := cost - current_player.price_in_millions
    if net_cost > budget then none
    else
      let improvement := score candidate - score current_player
      if improvement > 3 then
        some { player_out := current_player
               player_out_score := score current_player
               player_in := candidate
               player_in_score := score candidate
               improvement := improvement
               acquisition_cost := cost
               net_cost := net_cost
               value_ratio := improvement / max |net_cost| (1/10)
               acquisition_type := get_acquisition_type candidate now }
      else none

/-- The accepted pairs of `find_best_transfers` in enumeration order
(outer loop over owned non-coach players, inner loop over eligible
candidates). -/
def collect_suggestions (score : Player → ℚ) (team : Team) (pool : List Player)
    (budget : ℚ) (now : ℤ) : List TransferSuggestion :=
  (team.players.filter (fun p => p.position_id ≠ 5)).flatMap (fun cur =>
    (eligible_candidates team pool now).filterMap (suggestion_for score budget now cur))

/-- Descending comparison on `value_ratio` used for the final sort
(`sort(key=..., reverse=True)` in Python is a stable sort; `mergeSort`
with this relation reproduces it exactly). -/
def ratio_ge (a b : TransferSuggestion) : Bool :=
  decide (b.value_ratio ≤ a.value_ratio)

/-- `PlayerEvaluator.find_best_transfers` with the candidate evaluation
abstracted as `score`: collect, stable-sort by value ratio descending,
truncate to `max_suggestions`. -/
def find_best_transfers_with (score : Player → ℚ) (team : Team)
    (pool : List Player) (budget : ℚ) (max_suggestions : ℕ) (now : ℤ) :
    List TransferSuggestion :=
  ((collect_suggestions score team pool budget now).mergeSort ratio_ge).take
    max_suggestions

/-- `PlayerEvaluator.find_best_transfers`, with the total score computed
by `evaluate_player` exactly as in the source. -/
def find_best_transfers (strengths : List (String × ℚ × ℚ))
    (fixtures : List Fixture) (team : Team) (pool : List Player)
    (budget : ℚ) (max_suggestions : ℕ) (now : ℤ) : List TransferSuggestion :=
  find_best_transfers_with
    (fun p => (evaluate_player strengths fixtures p).total_score)
    team pool budget max_suggestions now

end PlayerEvaluator

namespace DataLoader

/-- One parsed entry of the global player snapshot, as read by
`DataLoader.load_all_players` (fields after the `p.get(...)` defaults
have been applied). -/
structure GlobalPlayerEntry where
  id : String
  nickname : String
  position_id : ℤ
  team_id : String
  team_name : String
  points : ℤ := 0
  average_points : ℚ := 0
  last_season_points : Option ℤ := none
  market_value : ℤ := 0
  player_status : String := "ok"
deriving Repr, DecidableEq

/-- The base `Player` object built from one global-list entry inside
`load_all_players` (the `lastSeasonPoints` truthiness test of the
source turns a `0` into `None`). -/
def mkBasePlayer (e : GlobalPlayerEntry) : Player :=
  { id := e.id
    nickname := e.nickname
    position_id := e.position_id
    team_id := e.team_id
    team_name := e.team_name
    points := e.points
    average_points := e.average_points
    last_season_points :=
      match e.last_season_points with
      | some n => if n = 0 then none else some n
      | none => none
    market_value := e.market_value
    player_status := e.player_status }

/-- Insertion into the `all_players` dict keyed by id: a later entry
with the same id overwrites in place, a new id is appended (Python
dicts preserve insertion order). -/
def insertById (ps : List Player) (p : Player) : List Player :=
  if ps.any (fun q => q.id = p.id) then
    ps.map (fun q => if q.id = p.id then p else q)
  else ps ++ [p]

/-- The base-player construction loop of `load_all_players`. -/
def buildAllPlayers (entries : List GlobalPlayerEntry) : List Player :=
  entries.foldl (fun acc e => insertById acc (mkBasePlayer e)) []

/-- One parsed market listing, as consumed by `_enrich_market_data`. -/
structure MarketEntry where
  player_id : String
  discr : String
  sale_price : Option ℤ := none
deriving Repr, DecidableEq

/-- Applying one market entry: ids not in the mapping are skipped;
`is_on_market` is set unless the listing is a retained team holding;
`sale_price` is always assigned (possibly to `None`). -/
def applyMarketEntry (ps : List Player) (m : MarketEntry) : List Player :=
  ps.map (fun p =>
    if p.id = m.player_id then
      { p with
        is_on_market := if m.discr ≠ "marketPlayerTeam" then true else p.is_on_market
        sale_price := m.sale_price }
    else p)

/-- `DataLoader._enrich_market_data` over an in-memory market snapshot. -/
def enrich_market_data (ps : List Player) (market : List MarketEntry) : List Player :=
  market.foldl applyMarketEntry ps

/-- One parsed ownership entry of a team snapshot, as consumed by
`_enrich_ownership_data`; `buyout_locked_until` is the parsed lock
timestamp, `none` when the string is absent or fails to parse. -/
structure OwnershipEntry where
  player_id : String
  buyout_clause : Option ℤ := none
  buyout_locked_until : Option ℤ := none
deriving Repr, DecidableEq

/-- One team snapshot used for ownership enrichment. -/
structure OwnershipTeamSnapshot where
  manager_name : String
  players : List OwnershipEntry
deriving Repr, DecidableEq

/-- Applying one ownership entry: sets the owner and buyout clause, and
the lock expiry only when a parse succeeded. -/
def applyOwnershipEntry (manager : String) (ps : List Player)
    (o : OwnershipEntry) : List Player :=
  ps.map (fun p =>
    if p.id = o.player_id then
      { p with
        owned_by := some manager
        buyout_clause := o.buyout_clause
        buyout_locked_until :=
          match o.buyout_locked_until with
          | some t => some t
          | none => p.buyout_locked_until }
    else p)

/-- `DataLoader._enrich_ownership_data` over in-memory team snapshots. -/
def enrich_ownership_data (ps : List Player)
    (teams : List OwnershipTeamSnapshot) : List Player :=
  teams.foldl (fun acc t => t.players.foldl (applyOwnershipEntry t.manager_name) acc) ps

/-- `DataLoader.load_all_players`: build base players from the global
list, then enrich with market and ownership data. -/
def load_all_players (entries : List GlobalPlayerEntry)
    (market : List MarketEntry) (teams : List OwnershipTeamSnapshot) : List Player :=
  enrich_ownership_data (enrich_market_data (buildAllPlayers entries) market) teams

end DataLoader

/-! Concrete inputs used by the witnesses and counterexamples below. -/

/-- A neutral baseline player: fit, free, no scraped signal. -/
def basePlayer : Player :=
  { id := "p0"
    nickname := "P0"
    position_id := 4
    team_id := "t0"
    team_name := "T0"
    points := 0
    average_points := 0
    market_value := 0
    player_status := "ok" }

/-- A player failing both penalty conditions: zero recent minutes and a
non-fit status. -/
def bothPenaltiesPlayer : Player :=
  { basePlayer with
    minutes_last_3 := [0, 0, 0]
    player_status := "injured" }

/-- A player whose scraped hierarchy rank is 6. -/
def rankSixPlayer : Player :=
  { basePlayer with scraped_data := some { jerarquia := some 6 } }

/-- A player whose scraped play probability is present but exactly 0. -/
def zeroProbPlayer : Player :=
  { basePlayer with scraped_data := some { play_probability := some 0 } }

/-- A player whose scraped form arrow is 2. -/
def arrowTwoPlayer : Player :=
  { basePlayer with scraped_data := some { form_arrow := some 2 } }

/-- A home fixture of `basePlayer`'s team against Valencia CF. -/
def homeVsValencia : Fixture :=
  { match_id := "m1"
    match_date := 0
    home_team_id := "t0"
    home_team_name := "T0"
    away_team_id := "val"
    away_team_name := "Valencia CF" }

/-- The side-swapped twin of `homeVsValencia`. -/
def awayVsValencia : Fixture :=
  { match_id := "m1"
    match_date := 0
    home_team_id := "val"
    home_team_name := "Valencia CF"
    away_team_id := "t0"
    away_team_name := "T0" }

/-- Concrete owned player for the transfer-search witness: worthless
form, priced 2.0M. -/
def c1_out : Player :=
  { id := "out1"
    nickname := "O"
    position_id := 4
    team_id := "t1"
    team_name := "T1"
    points := 0
    average_points := 0
    market_value := 2000000
    player_status := "ok"
    last_3_weeks := [0, 0, 0]
    minutes_last_3 := [0, 0, 0] }

/-- Concrete on-market candidate for the transfer-search witness. -/
def c1_cand : Player :=
  { id := "in1"
    nickname := "C"
    position_id := 4
    team_id := "t2"
    team_name := "T2"
    points := 0
    average_points := 10
    market_value := 1000000
    player_status := "ok"
    last_3_weeks := [10, 10, 10]
    minutes_last_3 := [90, 90, 90]
    is_on_market := true
    sale_price := some 1000000 }

/-- The team owning `c1_out`, with a 5.0M budget. -/
def c1_team : Team :=
  { team_id := "me"
    manager_name := "m"
    players := [c1_out]
    team_value := 2000000
    team_points := 0
    team_money := some 5000000
    position := 1 }

/-- The single suggestion produced on the witness input. -/
def c1_sugg : PlayerEvaluator.TransferSuggestion :=
  { player_out := c1_out
    player_out_score := 567/20
    player_in := c1_cand
    player_in_score := 161/2
    improvement := 1043/20
    acquisition_cost := 1
    net_cost := -1
    value_ratio := 1043/20
    acquisition_type := "Market" }

/-- Owned player of the spec's ranking scenario: priced 8.0M, score 40. -/
def c4_out : Player :=
  { id := "o"
    nickname := "O"
    position_id := 4
    team_id := "t1"
    team_name := "T1"
    points := 0
    average_points := 0
    market_value := 8000000
    player_status := "ok" }

/-- Candidate of the spec's ranking scenario: on market at 10.0M, score 46. -/
def c4_candidate : Player :=
  { id := "i"
    nickname := "I"
    position_id := 4
    team_id := "t2"
    team_name := "T2"
    points := 0
    average_points := 0
    market_value := 10000000
    player_status := "ok"
    is_on_market := true
    sale_price := some 10000000 }

/-- Evaluation totals of the ranking scenario (the spec fixes the two
totals at 40 and 46). -/
def c4_score : Player → ℚ := fun p => if p.id = "i" then 46 else 40

/-- The team of the ranking scenario. -/
def c4_team : Team :=
  { team_id := "me"
    manager_name := "m"
    players := [c4_out]
    team_value := 8000000
    team_points := 0
    team_money := some 5000000
    position := 1 }

/-- The suggestion the ranking scenario must produce: net cost 2.0,
improvement 6, value ratio 3.0. -/
def c4_suggestion : PlayerEvaluator.TransferSuggestion :=
  { player_out := c4_out
    player_out_score := 40
    player_in := c4_candidate
    player_in_score := 46
    improvement := 6
    acquisition_cost := 10
    net_cost := 2
    value_ratio := 3
    acquisition_type := "Market" }

/-- A one-row global snapshot for the data-unifier witness. -/
def g1 : DataLoader.GlobalPlayerEntry :=
  { id := "g1"
    nickname := "G1"
    position_id := 2
    team_id := "t9"
    team_name := "T9"
    points := 12
    average_points := 3
    last_season_points := some 80
    market_value := 4000000
    player_status := "ok" }

/-! Claim theorems. -/

/-- C6: the two evaluation penalties compose multiplicatively: the total
is multiplied by 0.7 when minutes-reliability (average of the last-3
minutes over 90, capped at 1) is below 0.6, by 0.5 when the status is
not the fit value, and a player failing both scores exactly 0.35 times
its pre-penalty total. -/
theorem penalties_compose_multiplicatively (p : Player) (s : ℚ) :
    PlayerEvaluator.apply_penalties p s =
      s * (if p.minutes_reliability < 3/5 then 7/10 else 1) *
        (if p.player_status = "ok" then 1 else 1/2) ∧
    (p.minutes_reliability < 3/5 → p.player_status ≠ "ok" →
      PlayerEvaluator.apply_penalties p s = 7/20 * s) ∧
    (p.minutes_last_3 ≠ [] →
      p.minutes_reliability =
        min (((p.minutes_last_3.map (fun n => (n : ℚ))).sum /
          p.minutes_last_3.length) / 90) 1) := by
  refine ⟨?_, ?_, ?_⟩
  · simp only [PlayerEvaluator.apply_penalties]
    split_ifs <;> simp_all
  · intro h1 h2
    simp only [PlayerEvaluator.apply_penalties, if_pos h1, if_pos h2]
    ring
  · intro h
    simp [Player.minutes_reliability, h]

/-- C6 witness: a player with zero recent minutes and an injured status
scores exactly 0.35 × 100 = 35. -/
theorem penalties_compose_multiplicatively_witness :
    PlayerEvaluator.apply_penalties bothPenaltiesPlayer 100 = 35 := by
  have h := (penalties_compose_multiplicatively bothPenaltiesPlayer 100).2.1
    (by
      simp only [Player.minutes_reliability, bothPenaltiesPlayer, basePlayer]
      rw [if_neg (by simp)]
      norm_num)
    (by simp [bothPenaltiesPlayer, basePlayer])
  rw [h]; norm_num

/-- C7: with the scraped signal entirely absent the evaluation is a
total function of the player (the embedding cannot raise), and every
signal-dependent sub-score takes its neutral default: hierarchy half its
weight (7.5), play probability and injury risk 70% of their weights
(7 and 3.5), and the scraped-form addend the mid-range value 5 rather
than zero. -/
theorem no_signal_neutral_defaults (strengths : List (String × ℚ × ℚ))
    (fixtures : List Fixture) (p : Player) (h : p.scraped_data = none) :
    (PlayerEvaluator.evaluate_player strengths fixtures p).jerarquia_score =
      PlayerEvaluator.WEIGHTS_jerarquia / 2 ∧
    (PlayerEvaluator.evaluate_player strengths fixtures p).jerarquia_score = 15/2 ∧
    (PlayerEvaluator.evaluate_player strengths fixtures p).probability_score =
      PlayerEvaluator.WEIGHTS_probability * (7/10) ∧
    (PlayerEvaluator.evaluate_player strengths fixtures p).probability_score = 7 ∧
    (PlayerEvaluator.evaluate_player strengths fixtures p).injury_score =
      PlayerEvaluator.WEIGHTS_injury * (7/10) ∧
    (PlayerEvaluator.evaluate_player strengths fixtures p).injury_score = 7/2 ∧
    (PlayerEvaluator.evaluate_player strengths fixtures p).form_score =
      min (p.form_last_3 / 10) 1 * PlayerEvaluator.WEIGHTS_form + 5 ∧
    (5 : ℚ) ≠ 0 := by
  simp only [PlayerEvaluator.evaluate_player, PlayerEvaluator.calculate_jerarquia_score,
    PlayerEvaluator.calculate_probability_score, PlayerEvaluator.calculate_injury_score,
    PlayerEvaluator.calculate_form_score, h, PlayerEvaluator.WEIGHTS_jerarquia,
    PlayerEvaluator.WEIGHTS_probability, PlayerEvaluator.WEIGHTS_injury,
    PlayerEvaluator.WEIGHTS_form]
  norm_num

/-- C7 witness: the neutral defaults on a concrete unscraped player. -/
theorem no_signal_neutral_defaults_witness :
    (PlayerEvaluator.evaluate_player FixtureAnalyzer.TEAM_STRENGTHS [] basePlayer).jerarquia_score = 15/2 ∧
    (PlayerEvaluator.evaluate_player FixtureAnalyzer.TEAM_STRENGTHS [] basePlayer).probability_score = 7 ∧
    (PlayerEvaluator.evaluate_player FixtureAnalyzer.TEAM_STRENGTHS [] basePlayer).injury_score = 7/2 := by
  have h := no_signal_neutral_defaults FixtureAnalyzer.TEAM_STRENGTHS [] basePlayer rfl
  exact ⟨h.2.1, h.2.2.2.1, h.2.2.2.2.2.1⟩

/-- C9: a present-but-zero scraped play probability is falsy in the
source's truthiness test, so the sub-score equals the absent-signal
default 7 (70% of the probability weight), indistinguishable from an
absent probability. -/
theorem zero_probability_equals_absent (strengths : List (String × ℚ × ℚ))
    (fixtures : List Fixture) (p : Player) (d : ScrapedPlayerData)
    (hp : p.scraped_data = some d) (h0 : d.play_probability = some 0) :
    PlayerEvaluator.calculate_probability_score p = 7 ∧
    PlayerEvaluator.calculate_probability_score p =
      PlayerEvaluator.WEIGHTS_probability * (7/10) ∧
    PlayerEvaluator.calculate_probability_score p =
      PlayerEvaluator.calculate_probability_score { p with scraped_data := none } ∧
    (PlayerEvaluator.evaluate_player strengths fixtures p).probability_score = 7 := by
  refine ⟨?_, ?_, ?_, ?_⟩ <;>
    simp [PlayerEvaluator.evaluate_player, PlayerEvaluator.calculate_probability_score,
      hp, h0, truthyRat, PlayerEvaluator.WEIGHTS_probability] <;> norm_num

/-- C9 witness: the concrete zero-probability player scores 7. -/
theorem zero_probability_equals_absent_witness :
    PlayerEvaluator.calculate_probability_score zeroProbPlayer = 7 :=
  (zero_probability_equals_absent FixtureAnalyzer.TEAM_STRENGTHS [] zeroProbPlayer
    { play_probability := some 0 } rfl rfl).1

/-- C10: a present form arrow a (1-5) adds (5 - a/5) × 10 to the form
score, which lies in [40, 48], is strictly decreasing in the arrow, and
dwarfs the nominal form weight 15; an absent arrow adds exactly 5. -/
theorem form_arrow_addend (p : Player) (d : ScrapedPlayerData) (a : ℤ)
    (hp : p.scraped_data = some d) (ha : d.form_arrow = some a)
    (h1 : 1 ≤ a) (h5 : a ≤ 5) :
    PlayerEvaluator.calculate_form_score p =
      min (p.form_last_3 / 10) 1 * PlayerEvaluator.WEIGHTS_form + (5 - (a : ℚ)/5) * 10 ∧
    40 ≤ (5 - (a : ℚ)/5) * 10 ∧
    (5 - (a : ℚ)/5) * 10 ≤ 48 ∧
    (∀ b : ℤ, a < b → b ≤ 5 →
      PlayerEvaluator.calculate_form_score
          { p with scraped_data := some { d with form_arrow := some b } } <
        PlayerEvaluator.calculate_form_score p) ∧
    (PlayerEvaluator.calculate_form_score
        { p with scraped_data := some { d with form_arrow := none } } =
      min (p.form_last_3 / 10) 1 * PlayerEvaluator.WEIGHTS_form + 5) ∧
    PlayerEvaluator.WEIGHTS_form < (5 - (a : ℚ)/5) * 10 := by
  have haQ1 : (1 : ℚ) ≤ (a : ℚ) := by exact_mod_cast h1
  have haQ5 : (a : ℚ) ≤ 5 := by exact_mod_cast h5
  have hane : a ≠ 0 := by omega
  refine ⟨?_, by linarith, by linarith, ?_, ?_, ?_⟩
  · simp [PlayerEvaluator.calculate_form_score, hp, truthyInt, hane,
      ScrapedPlayerData.get_form_score, ha]
  · intro b hab hb5
    have hbne : b ≠ 0 := by omega
    have hbQ : (a : ℚ) < (b : ℚ) := by exact_mod_cast hab
    simp only [PlayerEvaluator.calculate_form_score, hp, truthyInt,
      ScrapedPlayerData.get_form_score, ha, Player.form_last_3]
    simp [hane, hbne]
    linarith
  · simp [PlayerEvaluator.calculate_form_score, hp, truthyInt,
      ScrapedPlayerData.get_form_score, Player.form_last_3]
  · simp only [PlayerEvaluator.WEIGHTS_form]
    linarith

/-- C10 witness: arrow 2 on a concrete player adds (5 - 2/5) × 10 = 46. -/
theorem form_arrow_addend_witness :
    PlayerEvaluator.calculate_form_score arrowTwoPlayer =
      min (arrowTwoPlayer.form_last_3 / 10) 1 * PlayerEvaluator.WEIGHTS_form +
        (5 - ((2 : ℤ) : ℚ)/5) * 10 ∧
    40 ≤ (5 - ((2 : ℤ) : ℚ)/5) * 10 := by
  have h := form_arrow_addend arrowTwoPlayer { form_arrow := some 2 } 2 rfl rfl
    (by norm_num) (by norm_num)
  exact ⟨h.1, h.2.1⟩

/-- C3 counterexample: the hierarchy sub-score at scraped rank 6 is
2.5, not 0, so the claimed rank-6-to-zero mapping is false. -/
theorem jerarquia_rank_six_counterexample :
    rankSixPlayer.scraped_data = some { jerarquia := some 6 } ∧
    PlayerEvaluator.calculate_jerarquia_score rankSixPlayer = 5/2 ∧
    (5/2 : ℚ) ≠ 0 := by
  refine ⟨rfl, ?_, by norm_num⟩
  norm_num [PlayerEvaluator.calculate_jerarquia_score, rankSixPlayer, basePlayer,
    truthyInt, ScrapedPlayerData.get_jerarquia_score, PlayerEvaluator.WEIGHTS_jerarquia]

/-- C3 amended: the hierarchy sub-score is linear in a present rank with
rank 1 mapping to the full weight 15 and rank 7 (not 6) to zero; rank 6
gives 2.5; a player without a scraped rank gets half the weight, 7.5. -/
theorem jerarquia_linear_rank7_zero (p : Player) (d : ScrapedPlayerData) (j : ℤ)
    (hp : p.scraped_data = some d) (hj : d.jerarquia = some j) (h1 : 1 ≤ j) :
    PlayerEvaluator.calculate_jerarquia_score p =
      (7 - (j : ℚ)) / 6 * PlayerEvaluator.WEIGHTS_jerarquia ∧
    (j = 1 → PlayerEvaluator.calculate_jerarquia_score p = 15) ∧
    (j = 7 → PlayerEvaluator.calculate_jerarquia_score p = 0) ∧
    (j = 6 → PlayerEvaluator.calculate_jerarquia_score p = 5/2) ∧
    (∀ q : Player, q.scraped_data = none →
      PlayerEvaluator.calculate_jerarquia_score q = 15/2) := by
  have hne : j ≠ 0 := by omega
  have heq : PlayerEvaluator.calculate_jerarquia_score p =
      (7 - (j : ℚ)) / 6 * PlayerEvaluator.WEIGHTS_jerarquia := by
    simp [PlayerEvaluator.calculate_jerarquia_score, hp, truthyInt, hne,
      ScrapedPlayerData.get_jerarquia_score, hj]
  refine ⟨heq, ?_, ?_, ?_, ?_⟩
  · intro h; subst h; rw [heq]; norm_num [PlayerEvaluator.WEIGHTS_jerarquia]
  · intro h; subst h; rw [heq]; norm_num [PlayerEvaluator.WEIGHTS_jerarquia]
  · intro h; subst h; rw [heq]; norm_num [PlayerEvaluator.WEIGHTS_jerarquia]
  · intro q hq
    norm_num [PlayerEvaluator.calculate_jerarquia_score, hq,
      PlayerEvaluator.WEIGHTS_jerarquia]

/-- C3 amended witness: rank 6 on a concrete player gives 2.5. -/
theorem jerarquia_linear_rank7_zero_witness :
    PlayerEvaluator.calculate_jerarquia_score rankSixPlayer = 5/2 := by
  have h := jerarquia_linear_rank7_zero rankSixPlayer { jerarquia := some 6 } 6
    rfl rfl (by norm_num)
  exact h.2.2.2.1 rfl

/-- Clamping to [1, 5] is monotone. -/
theorem clamp15_mono {a b : ℚ} (h : a ≤ b) :
    max 1 (min 5 a) ≤ max 1 (min 5 b) :=
  max_le_max le_rfl (min_le_min le_rfl h)

/-- The match difficulty is antitone in the opponent's average rating. -/
theorem match_difficulty_antitone (S1 S2 : List (String × ℚ × ℚ))
    (opp : String) (ih : Bool)
    (h : FixtureAnalyzer.avgStrength S2 opp ≤ FixtureAnalyzer.avgStrength S1 opp) :
    FixtureAnalyzer.calculate_match_difficulty S1 opp ih ≤
      FixtureAnalyzer.calculate_match_difficulty S2 opp ih := by
  simp only [FixtureAnalyzer.calculate_match_difficulty]
  apply clamp15_mono
  cases ih <;> simp <;> linarith

/-- For the same opponent, the home difficulty is at most the away one
(0.5 is subtracted at home, 0.2 added away). -/
theorem match_difficulty_home_le_away (S : List (String × ℚ × ℚ)) (opp : String) :
    FixtureAnalyzer.calculate_match_difficulty S opp true ≤
      FixtureAnalyzer.calculate_match_difficulty S opp false := by
  simp only [FixtureAnalyzer.calculate_match_difficulty]
  apply clamp15_mono
  simp
  linarith

/-- C2 counterexample: away to Real Madrid (average rating 4.75) the
difficulty is 1.45, away to Real Valladolid (average rating 2.65) it is
3.55; the stronger opponent yields a strictly LOWER difficulty, so the
claimed "stronger opponent ⇒ strictly higher difficulty" is false. -/
theorem difficulty_not_increasing_counterexample :
    FixtureAnalyzer.avgStrength FixtureAnalyzer.TEAM_STRENGTHS "Real Madrid" = 19/4 ∧
    FixtureAnalyzer.avgStrength FixtureAnalyzer.TEAM_STRENGTHS "Real Valladolid" = 53/20 ∧
    FixtureAnalyzer.calculate_match_difficulty
      FixtureAnalyzer.TEAM_STRENGTHS "Real Madrid" false = 29/20 ∧
    FixtureAnalyzer.calculate_match_difficulty
      FixtureAnalyzer.TEAM_STRENGTHS "Real Valladolid" false = 71/20 ∧
    (19/4 : ℚ) > 53/20 ∧
    ¬((29/20 : ℚ) > 71/20) := by
  have hRM : FixtureAnalyzer.lookupStrength FixtureAnalyzer.TEAM_STRENGTHS
      "Real Madrid" = (5, 9/2) := rfl
  have hRV : FixtureAnalyzer.lookupStrength FixtureAnalyzer.TEAM_STRENGTHS
      "Real Valladolid" = (5/2, 14/5) := rfl
  refine ⟨?_, ?_, ?_, ?_, by norm_num, by norm_num⟩ <;>
    simp only [FixtureAnalyzer.calculate_match_difficulty,
      FixtureAnalyzer.avgStrength, hRM, hRV] <;> norm_num

/-- C2 amended: the match difficulty equals 6 minus the opponent's
average rating, minus 0.5 at home / plus 0.2 away, clamped to [1, 5];
it is monotonically NON-INCREASING in the opponent's average rating
(a stronger opponent yields a lower or equal difficulty, the opposite
direction of the original claim). -/
theorem difficulty_formula_and_antitone (strengths : List (String × ℚ × ℚ))
    (opponent : String) (ih : Bool) :
    FixtureAnalyzer.calculate_match_difficulty strengths opponent ih =
      max 1 (min 5 (6 - FixtureAnalyzer.avgStrength strengths opponent +
        (if ih then -(1/2) else 1/5))) ∧
    1 ≤ FixtureAnalyzer.calculate_match_difficulty strengths opponent ih ∧
    FixtureAnalyzer.calculate_match_difficulty strengths opponent ih ≤ 5 ∧
    (∀ weaker : List (String × ℚ × ℚ),
      FixtureAnalyzer.avgStrength weaker opponent ≤
        FixtureAnalyzer.avgStrength strengths opponent →
      FixtureAnalyzer.calculate_match_difficulty strengths opponent ih ≤
        FixtureAnalyzer.calculate_match_difficulty weaker opponent ih) := by
  refine ⟨?_, ?_, ?_, ?_⟩
  · simp only [FixtureAnalyzer.calculate_match_difficulty]
    cases ih <;> norm_num <;> ring_nf
  · simp only [FixtureAnalyzer.calculate_match_difficulty]
    exact le_max_left 1 _
  · simp only [FixtureAnalyzer.calculate_match_difficulty]
    exact max_le (by norm_num) (min_le_left 5 _)
  · intro weaker hw
    exact match_difficulty_antitone strengths weaker opponent ih hw

/-- C2 amended witness: the full-table difficulty away to Real Madrid is
at most the empty-table (neutral rating 3) difficulty. -/
theorem difficulty_formula_and_antitone_witness :
    FixtureAnalyzer.avgStrength [] "Real Madrid" ≤
      FixtureAnalyzer.avgStrength FixtureAnalyzer.TEAM_STRENGTHS "Real Madrid" ∧
    FixtureAnalyzer.calculate_match_difficulty
        FixtureAnalyzer.TEAM_STRENGTHS "Real Madrid" false ≤
      FixtureAnalyzer.calculate_match_difficulty [] "Real Madrid" false := by
  have hle : FixtureAnalyzer.avgStrength [] "Real Madrid" ≤
      FixtureAnalyzer.avgStrength FixtureAnalyzer.TEAM_STRENGTHS "Real Madrid" := by
    norm_num [FixtureAnalyzer.avgStrength, FixtureAnalyzer.lookupStrength,
      FixtureAnalyzer.TEAM_STRENGTHS, FixtureAnalyzer.DEFAULT_STRENGTH, List.find?]
  exact ⟨hle,
    (difficulty_formula_and_antitone FixtureAnalyzer.TEAM_STRENGTHS
      "Real Madrid" false).2.2.2 [] hle⟩

/-- The fixture-difficulty scan under a pointwise-stronger table yields
pointwise lower-or-equal difficulties (same fixtures, same structure). -/
theorem get_fixture_difficulty_go_forall2 (S1 S2 : List (String × ℚ × ℚ))
    (tid : String) (n : ℕ)
    (h : ∀ name, FixtureAnalyzer.avgStrength S2 name ≤
      FixtureAnalyzer.avgStrength S1 name) :
    ∀ (fixtures : List Fixture) (acc1 acc2 : List FixtureAnalyzer.FixtureInfo),
      List.Forall₂ (fun a b => a.difficulty ≤ b.difficulty) acc1 acc2 →
      List.Forall₂ (fun a b => a.difficulty ≤ b.difficulty)
        (FixtureAnalyzer.get_fixture_difficulty_go S1 tid n acc1 fixtures)
        (FixtureAnalyzer.get_fixture_difficulty_go S2 tid n acc2 fixtures) := by
  intro fixtures
  induction fixtures with
  | nil =>
    intro acc1 acc2 hacc
    simpa [FixtureAnalyzer.get_fixture_difficulty_go] using hacc
  | cons f rest ih =>
    intro acc1 acc2 hacc
    have hlen := hacc.length_eq
    simp only [FixtureAnalyzer.get_fixture_difficulty_go]
    by_cases h1 : f.home_team_id = tid
    · rw [if_pos h1, if_pos h1]
      have hacc' : List.Forall₂ (fun a b => a.difficulty ≤ b.difficulty)
          (acc1 ++ [⟨f.away_team_name, true,
            FixtureAnalyzer.calculate_match_difficulty S1 f.away_team_name true,
            f.match_date⟩])
          (acc2 ++ [⟨f.away_team_name, true,
            FixtureAnalyzer.calculate_match_difficulty S2 f.away_team_name true,
            f.match_date⟩]) :=
        List.rel_append hacc
          (List.Forall₂.cons
            (match_difficulty_antitone S1 S2 f.away_team_name true (h _))
            List.Forall₂.nil)
      have hlen' := hacc'.length_eq
      by_cases h2 : n ≤ (acc1 ++ [(⟨f.away_team_name, true,
          FixtureAnalyzer.calculate_match_difficulty S1 f.away_team_name true,
          f.match_date⟩ : FixtureAnalyzer.FixtureInfo)]).length
      · rw [if_pos h2, if_pos (hlen' ▸ h2)]
        exact hacc'
      · rw [if_neg h2, if_neg (fun hc => h2 (hlen' ▸ hc))]
        exact ih _ _ hacc'
    · rw [if_neg h1, if_neg h1]
      by_cases ha : f.away_team_id = tid
      · rw [if_pos ha, if_pos ha]
        have hacc' : List.Forall₂ (fun a b => a.difficulty ≤ b.difficulty)
            (acc1 ++ [⟨f.home_team_name, false,
              FixtureAnalyzer.calculate_match_difficulty S1 f.home_team_name false,
              f.match_date⟩])
            (acc2 ++ [⟨f.home_team_name, false,
              FixtureAnalyzer.calculate_match_difficulty S2 f.home_team_name false,
              f.match_date⟩]) :=
          List.rel_append hacc
            (List.Forall₂.cons
              (match_difficulty_antitone S1 S2 f.home_team_name false (h _))
              List.Forall₂.nil)
        have hlen' := hacc'.length_eq
        by_cases h2 : n ≤ (acc1 ++ [(⟨f.home_team_name, false,
            FixtureAnalyzer.calculate_match_difficulty S1 f.home_team_name false,
            f.match_date⟩ : FixtureAnalyzer.FixtureInfo)]).length
        · rw [if_pos h2, if_pos (hlen' ▸ h2)]
          exact hacc'
        · rw [if_neg h2, if_neg (fun hc => h2 (hlen' ▸ hc))]
          exact ih _ _ hacc'
      · rw [if_neg ha, if_neg ha]
        exact ih _ _ hacc

/-- Weighted sums with nonnegative weights are monotone in the scores. -/
theorem zip_weights_sum_mono :
    ∀ {l1 l2 : List ℚ}, List.Forall₂ (· ≤ ·) l1 l2 →
    ∀ (w : List ℚ), (∀ x ∈ w, 0 ≤ x) →
    ((l1.zip w).map (fun sw => sw.1 * sw.2)).sum ≤
      ((l2.zip w).map (fun sw => sw.1 * sw.2)).sum := by
  intro l1 l2 h
  induction h with
  | nil => intro w _; simp
  | cons hab htail ih =>
    intro w hw
    cases w with
    | nil => simp
    | cons wh wt =>
      simp only [List.zip_cons_cons, List.map_cons, List.sum_cons]
      exact add_le_add
        (mul_le_mul_of_nonneg_right hab (hw wh (by simp)))
        (ih wt (fun x hx => hw x (by simp [hx])))

/-- Doubling difficulties preserves the pointwise order. -/
theorem forall2_scores {fs1 fs2 : List FixtureAnalyzer.FixtureInfo}
    (h : List.Forall₂ (fun a b => a.difficulty ≤ b.difficulty) fs1 fs2) :
    List.Forall₂ (· ≤ ·) (fs1.map (fun f => f.difficulty * 2))
      (fs2.map (fun f => f.difficulty * 2)) := by
  induction h with
  | nil => simp
  | cons hab _ ih =>
    simp only [List.map_cons]
    exact List.Forall₂.cons (by linarith) ih

/-- The truncated recency weights are nonnegative. -/
theorem weights_take_nonneg (k : ℕ) :
    ∀ x ∈ (([1, 4/5, 3/5] : List ℚ).take k), 0 ≤ x := by
  intro x hx
  have hx' := List.mem_of_mem_take hx
  simp at hx'
  rcases hx' with rfl | rfl | rfl <;> norm_num

/-- The truncated recency weights have positive sum when nonempty. -/
theorem weights_take_sum_pos (k : ℕ) (hk : k ≠ 0) :
    0 < (([1, 4/5, 3/5] : List ℚ).take k).sum := by
  rcases k with _ | _ | _ | k
  · exact absurd rfl hk
  · norm_num [List.take_succ_cons]
  · norm_num [List.take_succ_cons]
  · norm_num [List.take_succ_cons]

/-- C5 counterexample: on two otherwise-identical single-fixture
calendars against Valencia CF, the home fixture scores 4.0 and the away
fixture 5.4; the home score is strictly lower, not higher as claimed. -/
theorem fixture_score_home_not_higher_counterexample :
    FixtureAnalyzer.calculate_fixture_score FixtureAnalyzer.TEAM_STRENGTHS
      [homeVsValencia] basePlayer 3 = 4 ∧
    FixtureAnalyzer.calculate_fixture_score FixtureAnalyzer.TEAM_STRENGTHS
      [awayVsValencia] basePlayer 3 = 27/5 ∧
    ¬((4 : ℚ) > 27/5) := by
  have hv : FixtureAnalyzer.lookupStrength FixtureAnalyzer.TEAM_STRENGTHS
      "Valencia CF" = (7/2, 7/2) := rfl
  refine ⟨?_, ?_, by norm_num⟩ <;>
    simp [FixtureAnalyzer.calculate_fixture_score,
      FixtureAnalyzer.get_fixture_difficulty, FixtureAnalyzer.get_fixture_difficulty_go,
      FixtureAnalyzer.calculate_match_difficulty, FixtureAnalyzer.avgStrength, hv,
      homeVsValencia, awayVsValencia, basePlayer] <;>
    norm_num

/-- C5 amended: the per-player fixture score is monotonically
non-increasing in the opponents' strength ratings, and for two
otherwise-identical single-fixture calendars the HOME fixture score is
lower or equal, not higher (the fixed constant 0.5 is subtracted from
the difficulty at home and 0.2 added away, and the fixture score grows
with difficulty). -/
theorem fixture_score_antitone_and_home_le_away :
    (∀ (S1 S2 : List (String × ℚ × ℚ)) (fixtures : List Fixture)
        (p : Player) (n : ℕ),
      (∀ name, FixtureAnalyzer.avgStrength S2 name ≤
        FixtureAnalyzer.avgStrength S1 name) →
      FixtureAnalyzer.calculate_fixture_score S1 fixtures p n ≤
        FixtureAnalyzer.calculate_fixture_score S2 fixtures p n) ∧
    (∀ (S : List (String × ℚ × ℚ)) (p : Player) (mid : String) (t : ℤ)
        (oid oname : String), oid ≠ p.team_id →
      FixtureAnalyzer.calculate_fixture_score S
          [⟨mid, t, p.team_id, p.team_name, oid, oname, none, none, 0⟩] p 3 ≤
        FixtureAnalyzer.calculate_fixture_score S
          [⟨mid, t, oid, oname, p.team_id, p.team_name, none, none, 0⟩] p 3) ∧
    (∀ (S : List (String × ℚ × ℚ)) (opp : String),
      FixtureAnalyzer.calculate_match_difficulty S opp true =
        max 1 (min 5 (6 - FixtureAnalyzer.avgStrength S opp - 1/2)) ∧
      FixtureAnalyzer.calculate_match_difficulty S opp false =
        max 1 (min 5 (6 - FixtureAnalyzer.avgStrength S opp + 1/5))) := by
  refine ⟨?_, ?_, ?_⟩
  · intro S1 S2 fixtures p n h
    have hrel := get_fixture_difficulty_go_forall2 S1 S2 p.team_id n h fixtures
      [] [] List.Forall₂.nil
    simp only [FixtureAnalyzer.calculate_fixture_score,
      FixtureAnalyzer.get_fixture_difficulty]
    have hlen := hrel.length_eq
    by_cases he : FixtureAnalyzer.get_fixture_difficulty_go S1 p.team_id n [] fixtures = []
    · have he2 : FixtureAnalyzer.get_fixture_difficulty_go S2 p.team_id n [] fixtures = [] :=
        List.length_eq_zero.mp (by rw [← hlen, he]; rfl)
      rw [if_pos he, if_pos he2]
    · have he2 : FixtureAnalyzer.get_fixture_difficulty_go S2 p.team_id n [] fixtures ≠ [] := by
        intro hc
        exact he (List.length_eq_zero.mp (by rw [hlen, hc]; rfl))
      rw [if_neg he, if_neg he2]
      rw [← hlen]
      apply div_le_div_of_nonneg_right
      · exact zip_weights_sum_mono (forall2_scores hrel) _
          (weights_take_nonneg _)
      · exact le_of_lt (weights_take_sum_pos _ (fun h0 => he (List.length_eq_zero.mp h0)))
  · intro S p mid t oid oname hne
    have hd := match_difficulty_home_le_away S oname
    simp [FixtureAnalyzer.calculate_fixture_score,
      FixtureAnalyzer.get_fixture_difficulty, FixtureAnalyzer.get_fixture_difficulty_go,
      hne]
    linarith
  · intro S opp
    constructor <;> simp [FixtureAnalyzer.calculate_match_difficulty]

/-- C5 amended witness: the antitone part applied to a one-row table
against the empty table, and the home-not-higher part applied to the
concrete Valencia fixtures. -/
theorem fixture_score_antitone_and_home_le_away_witness :
    (∀ name, FixtureAnalyzer.avgStrength [] name ≤
      FixtureAnalyzer.avgStrength [("Valencia CF", 7/2, 7/2)] name) ∧
    FixtureAnalyzer.calculate_fixture_score [("Valencia CF", 7/2, 7/2)]
        [homeVsValencia] basePlayer 3 ≤
      FixtureAnalyzer.calculate_fixture_score [] [homeVsValencia] basePlayer 3 ∧
    ("val" : String) ≠ basePlayer.team_id ∧
    FixtureAnalyzer.calculate_fixture_score FixtureAnalyzer.TEAM_STRENGTHS
        [⟨"m1", 0, basePlayer.team_id, basePlayer.team_name, "val", "Valencia CF",
          none, none, 0⟩] basePlayer 3 ≤
      FixtureAnalyzer.calculate_fixture_score FixtureAnalyzer.TEAM_STRENGTHS
        [⟨"m1", 0, "val", "Valencia CF", basePlayer.team_id, basePlayer.team_name,
          none, none, 0⟩] basePlayer 3 := by
  have hname : ∀ name, FixtureAnalyzer.avgStrength [] name ≤
      FixtureAnalyzer.avgStrength [("Valencia CF", 7/2, 7/2)] name := by
    intro name
    simp only [FixtureAnalyzer.avgStrength, FixtureAnalyzer.lookupStrength,
      List.find?, FixtureAnalyzer.DEFAULT_STRENGTH]
    rcases eq_or_ne ("Valencia CF" : String) name with h | h
    · subst h; simp; norm_num
    · simp [h]
  have hne : ("val" : String) ≠ basePlayer.team_id := by
    simp [basePlayer]
  exact ⟨hname,
    (fixture_score_antitone_and_home_le_away).1 [("Valencia CF", 7/2, 7/2)] []
      [homeVsValencia] basePlayer 3 hname,
    hne,
    (fixture_score_antitone_and_home_le_away).2.1 FixtureAnalyzer.TEAM_STRENGTHS
      basePlayer "m1" 0 "val" "Valencia CF" hne⟩

/-- Members of the id-keyed insertion come from the old map or are the
inserted player. -/
theorem mem_insertById {ps : List Player} {p q : Player}
    (h : q ∈ DataLoader.insertById ps p) : q ∈ ps ∨ q = p := by
  simp only [DataLoader.insertById] at h
  split at h
  · rcases List.mem_map.mp h with ⟨a, ha, hq⟩
    by_cases hid : a.id = p.id
    · right; rw [← hq, if_pos hid]
    · left; rw [← hq, if_neg hid]; exact ha
  · rcases List.mem_append.mp h with h' | h'
    · exact Or.inl h'
    · exact Or.inr (List.mem_singleton.mp h')

/-- Every player built by the base-construction loop is the base image
of some global entry. -/
theorem mem_buildAllPlayers_fold (entries : List DataLoader.GlobalPlayerEntry) :
    ∀ (acc : List Player) (p : Player),
      p ∈ entries.foldl (fun acc e => DataLoader.insertById acc (DataLoader.mkBasePlayer e)) acc →
      p ∈ acc ∨ ∃ e ∈ entries, p = DataLoader.mkBasePlayer e := by
  induction entries with
  | nil => intro acc p hp; exact Or.inl hp
  | cons e rest ih =>
    intro acc p hp
    simp only [List.foldl_cons] at hp
    rcases ih _ p hp with h | ⟨e', he', hpe⟩
    · rcases mem_insertById h with h' | h'
      · exact Or.inl h'
      · exact Or.inr ⟨e, List.mem_cons_self e rest, h'⟩
    · exact Or.inr ⟨e', List.mem_cons_of_mem e he', hpe⟩

/-- C8: merging a global player list with an empty market snapshot and
empty ownership snapshots yields, for every resulting player, exactly
the base fields of some global-list entry: not on market, no owner, no
sale price, no buyout clause, no lock. -/
theorem merge_empty_market_ownership (entries : List DataLoader.GlobalPlayerEntry)
    (p : Player) (hp : p ∈ DataLoader.load_all_players entries [] []) :
    (∃ e ∈ entries, p = DataLoader.mkBasePlayer e) ∧
    p.is_on_market = false ∧ p.owned_by = none ∧ p.sale_price = none ∧
    p.buyout_clause = none ∧ p.buyout_locked_until = none := by
  have hp' : p ∈ DataLoader.buildAllPlayers entries := hp
  have hbase := mem_buildAllPlayers_fold entries [] p hp'
  rcases hbase with h | ⟨e, he, hpe⟩
  · exact absurd h (List.not_mem_nil p)
  · subst hpe
    exact ⟨⟨e, he, rfl⟩, rfl, rfl, rfl, rfl, rfl⟩

/-- C8 witness: a one-entry global list merged with empty market and
ownership data gives the base player record. -/
theorem merge_empty_market_ownership_witness :
    (∃ e ∈ [g1], DataLoader.mkBasePlayer g1 = DataLoader.mkBasePlayer e) ∧
    (DataLoader.mkBasePlayer g1).is_on_market = false ∧
    (DataLoader.mkBasePlayer g1).owned_by = none ∧
    (DataLoader.mkBasePlayer g1).sale_price = none ∧
    (DataLoader.mkBasePlayer g1).buyout_clause = none ∧
    (DataLoader.mkBasePlayer g1).buyout_locked_until = none :=
  merge_empty_market_ownership [g1] (DataLoader.mkBasePlayer g1) (by
    simp [DataLoader.load_all_players, DataLoader.enrich_market_data,
      DataLoader.enrich_ownership_data, DataLoader.buildAllPlayers,
      DataLoader.insertById])

/-- Inversion for membership in the abstract transfer search: every
returned suggestion arises from an owned non-coach player and an
eligible candidate accepted by the per-pair body. -/
theorem mem_find_best_transfers_with
    {score : Player → ℚ} {team : Team} {pool : List Player} {budget : ℚ}
    {maxs : ℕ} {now : ℤ} {t : PlayerEvaluator.TransferSuggestion}
    (ht : t ∈ PlayerEvaluator.find_best_transfers_with score team pool budget maxs now) :
    ∃ cur, cur ∈ team.players.filter (fun p => p.position_id ≠ 5) ∧
      ∃ cand, cand ∈ PlayerEvaluator.eligible_candidates team pool now ∧
        PlayerEvaluator.suggestion_for score budget now cur cand = some t := by
  simp only [PlayerEvaluator.find_best_transfers_with] at ht
  have h1 := List.mem_of_mem_take ht
  rw [List.mem_mergeSort] at h1
  simp only [PlayerEvaluator.collect_suggestions, List.mem_flatMap,
    List.mem_filterMap] at h1
  obtain ⟨cur, hcur, cand, hcand, hsugg⟩ := h1
  exact ⟨cur, hcur, cand, hcand, hsugg⟩

/-- Inversion for the per-pair body: an accepted pair satisfies the
budget test, the improvement threshold, and records the documented
fields. -/
theorem suggestion_for_some
    {score : Player → ℚ} {budget : ℚ} {now : ℤ} {cur cand : Player}
    {t : PlayerEvaluator.TransferSuggestion}
    (h : PlayerEvaluator.suggestion_for score budget now cur cand = some t) :
    t.player_in = cand ∧ t.player_out = cur ∧ t.net_cost ≤ budget ∧
    t.improvement > 3 ∧
    t.net_cost = t.acquisition_cost - cur.price_in_millions ∧
    t.value_ratio = t.improvement / max |t.net_cost| (1/10) ∧
    cand.get_acquisition_cost = some t.acquisition_cost := by
  simp only [PlayerEvaluator.suggestion_for] at h
  cases hc : cand.get_acquisition_cost with
  | none => rw [hc] at h; cases h
  | some cost =>
    rw [hc] at h
    dsimp only at h
    by_cases h1 : cost - cur.price_in_millions > budget
    · rw [if_pos h1] at h; cases h
    · rw [if_neg h1] at h
      by_cases h2 : score cand - score cur > 3
      · rw [if_pos h2] at h
        cases h
        exact ⟨rfl, rfl, le_of_not_lt h1, h2, rfl, rfl, rfl⟩
      · rw [if_neg h2] at h; cases h

/-- Inversion for the candidate filter. -/
theorem eligible_candidates_spec {team : Team} {pool : List Player}
    {now : ℤ} {cand : Player}
    (h : cand ∈ PlayerEvaluator.eligible_candidates team pool now) :
    cand ∈ pool ∧ cand.id ∉ team.players.map (fun cp => cp.id) ∧
    cand.is_available = true ∧ cand.is_transferable now = true := by
  simp only [PlayerEvaluator.eligible_candidates, List.mem_filter,
    Bool.and_eq_true, Bool.not_eq_true'] at h
  obtain ⟨hpool, ⟨hnc, hav⟩, htr⟩ := h
  refine ⟨hpool, ?_, hav, htr⟩
  intro hmem
  rw [List.contains_eq_any_beq] at hnc
  have : (team.players.map (fun cp => cp.id)).any (cand.id == ·) = true :=
    List.any_eq_true.mpr ⟨cand.id, hmem, by simp⟩
  rw [this] at hnc
  cases hnc

/-- A transferable player is on the market or under an expired lock. -/
theorem is_transferable_spec {p : Player} {now : ℤ}
    (h : p.is_transferable now = true) :
    p.is_on_market = true ∨ ∃ l, p.buyout_locked_until = some l ∧ l < now := by
  unfold Player.is_transferable at h
  by_cases hm : p.is_on_market
  · exact Or.inl hm
  · rw [if_neg (by simpa using hm)] at h
    cases hl : p.buyout_locked_until with
    | none => rw [hl] at h; cases h
    | some l => rw [hl] at h; exact Or.inr ⟨l, rfl, of_decide_eq_true h⟩

/-- C1: every proposal returned by the transfer search has net cost
(acquisition cost minus the outgoing player's market value in millions)
within budget, an eligible incoming candidate (off-roster, fit, and
transferable: on the market or under an expired buyout lock at the
search's current time), and a score improvement strictly above 3. -/
theorem transfer_constraints (strengths : List (String × ℚ × ℚ))
    (fixtures : List Fixture) (team : Team) (pool : List Player)
    (budget : ℚ) (maxs : ℕ) (now : ℤ) (t : PlayerEvaluator.TransferSuggestion)
    (ht : t ∈ PlayerEvaluator.find_best_transfers strengths fixtures team pool
      budget maxs now) :
    t.net_cost ≤ budget ∧
    t.net_cost = t.acquisition_cost - t.player_out.price_in_millions ∧
    t.player_in.id ∉ team.players.map (fun cp => cp.id) ∧
    t.player_in.is_available = true ∧
    t.player_in.is_transferable now = true ∧
    (t.player_in.is_on_market = true ∨
      ∃ l, t.player_in.buyout_locked_until = some l ∧ l < now) ∧
    t.improvement > 3 := by
  obtain ⟨cur, hcur, cand, hcand, hsugg⟩ := mem_find_best_transfers_with ht
  obtain ⟨hin, hout, hbudget, himp, hnet, hratio, hcost⟩ := suggestion_for_some hsugg
  obtain ⟨hpool, hnotmem, havail, htrans⟩ := eligible_candidates_spec hcand
  subst hin
  subst hout
  exact ⟨hbudget, hnet, hnotmem, havail, htrans, is_transferable_spec htrans, himp⟩

/-- Concrete evaluation of the witness's owned player: 28.35 after the
minutes penalty. -/
theorem c1_out_eval :
    (PlayerEvaluator.evaluate_player FixtureAnalyzer.TEAM_STRENGTHS [] c1_out).total_score
      = 567/20 := by
  simp [PlayerEvaluator.evaluate_player, PlayerEvaluator.calculate_form_score,
    PlayerEvaluator.calculate_fixture_score, PlayerEvaluator.calculate_ppg_score,
    PlayerEvaluator.calculate_value_score, PlayerEvaluator.calculate_jerarquia_score,
    PlayerEvaluator.calculate_probability_score, PlayerEvaluator.calculate_injury_score,
    PlayerEvaluator.apply_penalties, PlayerEvaluator.WEIGHTS_form,
    PlayerEvaluator.WEIGHTS_fixtures, PlayerEvaluator.WEIGHTS_ppg,
    PlayerEvaluator.WEIGHTS_value, PlayerEvaluator.WEIGHTS_jerarquia,
    PlayerEvaluator.WEIGHTS_probability, PlayerEvaluator.WEIGHTS_injury,
    FixtureAnalyzer.calculate_fixture_score, FixtureAnalyzer.get_fixture_difficulty,
    FixtureAnalyzer.get_fixture_difficulty_go, Player.form_last_3,
    Player.minutes_reliability, Player.points_per_game, Player.price_in_millions,
    c1_out]
  norm_num

/-- Concrete evaluation of the witness's candidate: 80.5, no penalty. -/
theorem c1_cand_eval :
    (PlayerEvaluator.evaluate_player FixtureAnalyzer.TEAM_STRENGTHS [] c1_cand).total_score
      = 161/2 := by
  simp [PlayerEvaluator.evaluate_player, PlayerEvaluator.calculate_form_score,
    PlayerEvaluator.calculate_fixture_score, PlayerEvaluator.calculate_ppg_score,
    PlayerEvaluator.calculate_value_score, PlayerEvaluator.calculate_jerarquia_score,
    PlayerEvaluator.calculate_probability_score, PlayerEvaluator.calculate_injury_score,
    PlayerEvaluator.apply_penalties, PlayerEvaluator.WEIGHTS_form,
    PlayerEvaluator.WEIGHTS_fixtures, PlayerEvaluator.WEIGHTS_ppg,
    PlayerEvaluator.WEIGHTS_value, PlayerEvaluator.WEIGHTS_jerarquia,
    PlayerEvaluator.WEIGHTS_probability, PlayerEvaluator.WEIGHTS_injury,
    FixtureAnalyzer.calculate_fixture_score, FixtureAnalyzer.get_fixture_difficulty,
    FixtureAnalyzer.get_fixture_difficulty_go, Player.form_last_3,
    Player.minutes_reliability, Player.points_per_game, Player.price_in_millions,
    c1_cand]
  norm_num

/-- The witness search returns exactly the one expected suggestion. -/
theorem c1_run :
    PlayerEvaluator.find_best_transfers FixtureAnalyzer.TEAM_STRENGTHS []
      c1_team [c1_cand] 5 5 0 = [c1_sugg] := by
  have hac : c1_cand.get_acquisition_cost = some 1 := by
    simp [Player.get_acquisition_cost, c1_cand, truthyInt]
  have hsug : PlayerEvaluator.suggestion_for
      (fun p => (PlayerEvaluator.evaluate_player FixtureAnalyzer.TEAM_STRENGTHS []
        p).total_score) 5 0 c1_out c1_cand = some c1_sugg := by
    have hpr : c1_out.price_in_millions = 2 := by
      norm_num [Player.price_in_millions, c1_out]
    have hty : PlayerEvaluator.get_acquisition_type c1_cand 0 = "Market" := rfl
    simp only [PlayerEvaluator.suggestion_for, hac]
    rw [if_neg (by norm_num [hpr]),
      if_pos (by rw [c1_out_eval, c1_cand_eval]; norm_num)]
    norm_num [c1_sugg, c1_out_eval, c1_cand_eval, hpr, hty]
  have hel : PlayerEvaluator.eligible_candidates c1_team [c1_cand] 0 = [c1_cand] := by
    simp [PlayerEvaluator.eligible_candidates, c1_team, c1_cand, c1_out,
      Player.is_available, Player.is_transferable]
  have hfil : c1_team.players.filter (fun p => p.position_id ≠ 5) = [c1_out] := by
    simp [c1_team, c1_out]
  simp only [PlayerEvaluator.find_best_transfers,
    PlayerEvaluator.find_best_transfers_with, PlayerEvaluator.collect_suggestions]
  rw [hfil, hel]
  simp [hsug]

/-- C1 witness: the returned suggestion satisfies every constraint on
the concrete input. -/
theorem transfer_constraints_witness :
    c1_sugg.net_cost ≤ 5 ∧
    c1_sugg.net_cost = c1_sugg.acquisition_cost - c1_sugg.player_out.price_in_millions ∧
    c1_sugg.player_in.id ∉ c1_team.players.map (fun cp => cp.id) ∧
    c1_sugg.player_in.is_available = true ∧
    c1_sugg.player_in.is_transferable 0 = true ∧
    (c1_sugg.player_in.is_on_market = true ∨
      ∃ l, c1_sugg.player_in.buyout_locked_until = some l ∧ l < 0) ∧
    c1_sugg.improvement > 3 :=
  transfer_constraints FixtureAnalyzer.TEAM_STRENGTHS [] c1_team [c1_cand]
    5 5 0 c1_sugg (by rw [c1_run]; exact List.mem_singleton.mpr rfl)

/-- The descending value-ratio comparison is transitive. -/
theorem ratio_ge_trans (a b c : PlayerEvaluator.TransferSuggestion)
    (h1 : PlayerEvaluator.ratio_ge a b) (h2 : PlayerEvaluator.ratio_ge b c) :
    PlayerEvaluator.ratio_ge a c := by
  simp only [PlayerEvaluator.ratio_ge, decide_eq_true_eq] at h1 h2 ⊢
  exact le_trans h2 h1

/-- The descending value-ratio comparison is total. -/
theorem ratio_ge_total (a b : PlayerEvaluator.TransferSuggestion) :
    PlayerEvaluator.ratio_ge a b || PlayerEvaluator.ratio_ge b a := by
  simp only [PlayerEvaluator.ratio_ge, Bool.or_eq_true, decide_eq_true_eq]
  exact le_total b.value_ratio a.value_ratio

/-- C4: every accepted pair records value ratio = improvement divided by
max(|net cost|, 0.1); the returned list is sorted by value ratio
descending, ties keep enumeration order (the stable sort leaves any
equal-ratio sublist in place), and it has at most `max_results` entries;
on the spec's scenario (budget 5, owned price 8 and score 40, on-market
candidate price 10 and score 46) the pair is accepted with net cost 2,
improvement 6 and value ratio 3. -/
theorem ranking_by_value_ratio (score : Player → ℚ) (team : Team)
    (pool : List Player) (budget : ℚ) (maxs : ℕ) (now : ℤ) :
    (∀ t ∈ PlayerEvaluator.find_best_transfers_with score team pool budget maxs now,
      t.value_ratio = t.improvement / max |t.net_cost| (1/10)) ∧
    (PlayerEvaluator.find_best_transfers_with score team pool budget maxs now).Pairwise
      (fun a b => b.value_ratio ≤ a.value_ratio) ∧
    (PlayerEvaluator.find_best_transfers_with score team pool budget maxs now).length
      ≤ maxs ∧
    (∀ a b : PlayerEvaluator.TransferSuggestion,
      List.Sublist [a, b]
        (PlayerEvaluator.collect_suggestions score team pool budget now) →
      a.value_ratio = b.value_ratio →
      List.Sublist [a, b]
        ((PlayerEvaluator.collect_suggestions score team pool budget
          now).mergeSort PlayerEvaluator.ratio_ge)) ∧
    PlayerEvaluator.find_best_transfers_with c4_score c4_team [c4_candidate] 5 5 0 =
      [c4_suggestion] ∧
    c4_suggestion.net_cost = 2 ∧ c4_suggestion.improvement = 6 ∧
    c4_suggestion.value_ratio = 6 / max |(2 : ℚ)| (1/10) ∧
    c4_suggestion.value_ratio = 3 := by
  refine ⟨?_, ?_, ?_, ?_, ?_, rfl, rfl, by norm_num [c4_suggestion], rfl⟩
  · intro t ht
    obtain ⟨cur, hcur, cand, hcand, hsugg⟩ := mem_find_best_transfers_with ht
    exact (suggestion_for_some hsugg).2.2.2.2.2.1
  · have hsorted := List.sorted_mergeSort ratio_ge_trans ratio_ge_total
      (PlayerEvaluator.collect_suggestions score team pool budget now)
    have htake : List.Sublist
        (PlayerEvaluator.find_best_transfers_with score team pool budget maxs now)
        ((PlayerEvaluator.collect_suggestions score team pool budget
          now).mergeSort PlayerEvaluator.ratio_ge) := List.take_sublist _ _
    exact (hsorted.sublist htake).imp
      (fun h => by simpa [PlayerEvaluator.ratio_ge, decide_eq_true_eq] using h)
  · simpa [PlayerEvaluator.find_best_transfers_with] using
      List.length_take_le maxs _
  · intro a b hab heq
    exact List.pair_sublist_mergeSort ratio_ge_trans ratio_ge_total
      (by simp only [PlayerEvaluator.ratio_ge, decide_eq_true_eq]; exact le_of_eq heq.symm)
      hab
  · have hac : c4_candidate.get_acquisition_cost = some 10 := by
      simp [Player.get_acquisition_cost, c4_candidate, truthyInt]
      norm_num
    have hpr : c4_out.price_in_millions = 8 := by
      norm_num [Player.price_in_millions, c4_out]
    have hs_out : c4_score c4_out = 40 := rfl
    have hs_in : c4_score c4_candidate = 46 := rfl
    have hty : PlayerEvaluator.get_acquisition_type c4_candidate 0 = "Market" := rfl
    have hsug : PlayerEvaluator.suggestion_for c4_score 5 0 c4_out c4_candidate =
        some c4_suggestion := by
      simp only [PlayerEvaluator.suggestion_for, hac]
      rw [if_neg (by norm_num [hpr]), if_pos (by rw [hs_out, hs_in]; norm_num)]
      norm_num [c4_suggestion, hs_out, hs_in, hpr, hty]
    have hel : PlayerEvaluator.eligible_candidates c4_team [c4_candidate] 0 =
        [c4_candidate] := by
      simp [PlayerEvaluator.eligible_candidates, c4_team, c4_candidate, c4_out,
        Player.is_available, Player.is_transferable]
    have hfil : c4_team.players.filter (fun p => p.position_id ≠ 5) = [c4_out] := by
      simp [c4_team, c4_out]
    simp only [PlayerEvaluator.find_best_transfers_with,
      PlayerEvaluator.collect_suggestions]
    rw [hfil, hel]
    simp [hsug]

/-- C4 witness: the scenario's suggestion is returned and records the
documented value ratio. -/
theorem ranking_by_value_ratio_witness :
    c4_suggestion.value_ratio =
      c4_suggestion.improvement / max |c4_suggestion.net_cost| (1/10) := by
  have h := ranking_by_value_ratio c4_score c4_team [c4_candidate] 5 5 0
  exact h.1 c4_suggestion (by rw [h.2.2.2.2.1]; exact List.mem_singleton.mpr rfl)
